import Mathlib

/-!
Verification of the Connect page's social-graph reconciliation logic
(src/src/pages/Connect.tsx) against its specification.

The component is shallowly embedded: each remote relation becomes a list of
rows, the remote database becomes a record of those lists, and each data-loading
or mutating handler becomes a pure function from the database (plus explicit
failure flags standing for per-call gateway errors, and the relevant pieces of
local component state) to the resulting database, local state, and emitted
toast notifications.
-/

/-! ## Data model: rows of the remote relations -/

/-- A row of the `profiles` relation. -/
structure ProfileRow where
  id : String
  name : String
  avatar_url : String
  tier : String
  followers : Nat
  bio : String
  created_at : String
  account_type : String
deriving DecidableEq

/-- A row of the `member_connections` relation. -/
structure MCRow where
  member_id : String
  connected_user_id : String
  connection_type : String
  status : String
deriving DecidableEq

/-- A row of the `media_page_follows` relation. -/
structure MPFRow where
  follower_id : String
  creator_name : String
deriving DecidableEq

/-- A row of the `connection_requests` relation (`rid` is the row id). -/
structure CRRow where
  rid : String
  sender_id : String
  recipient_id : String
  status : String
deriving DecidableEq

/-- A row of the `messages` relation. -/
structure MsgRow where
  sender_id : String
  recipient_id : String
  content : String
  timestamp : String
  read : Bool
deriving DecidableEq

/-- The remote store: the five relations the claims touch. -/
structure DB where
  profiles : List ProfileRow
  member_connections : List MCRow
  media_page_follows : List MPFRow
  connection_requests : List CRRow
  messages : List MsgRow
deriving DecidableEq

/-! ## Derived view records (the component's local state) -/

/-- The `Creator` view record built by `loadCreators`. -/
structure Creator where
  id : String
  name : String
  avatar_url : String
  tier : String
  followers : Nat
  bio : String
  created_at : String
  followed : Bool
deriving DecidableEq

/-- The `Member` view record built by `loadMembers`
(`requestStatus` is the string "pending" or "none"). -/
structure Member where
  id : String
  name : String
  avatar_url : String
  tier : String
  bio : String
  followers : Nat
  connected : Bool
  requestStatus : String
deriving DecidableEq

/-- The member snapshot written to the Local Cache by `loadMembers`
(`membersForCache`): the base profile fields plus a zeroed `connected` flag. -/
structure CachedMember where
  id : String
  name : String
  avatar_url : String
  tier : String
  bio : String
  connected : Bool
deriving DecidableEq

/-- A `Connection` entry (selected conversation partner). -/
structure Connection where
  id : String
  name : String
  avatar_url : String
  role : String
  bio : String
  isFollowing : Bool
deriving DecidableEq

/-- Toast kinds of the Notification Dispatcher. -/
inductive ToastKind where
  | success
  | error
deriving DecidableEq

/-- A toast notification as enqueued by a handler (message and kind). -/
structure ToastMsg where
  message : String
  kind : ToastKind
deriving DecidableEq

/-! ## loadCreators -/

/-- `loadCreators`: read creator profiles (limit 100), the current user's
`member_connections` follow edges, and the current user's `media_page_follows`
rows; mark each creator followed when its id is in the first set or its name is
in the second. -/
def loadCreators (db : DB) (userId : String) : List Creator :=
  let data := (db.profiles.filter (fun p => p.account_type == "creator")).take 100
  let followedViaConnectionIds :=
    (db.member_connections.filter
      (fun r => r.member_id == userId && r.connection_type == "follow")).map
      (fun r => r.connected_user_id)
  let followedViaMediaNames :=
    (db.media_page_follows.filter (fun r => r.follower_id == userId)).map
      (fun r => r.creator_name)
  data.map (fun p =>
    { id := p.id, name := p.name, avatar_url := p.avatar_url, tier := p.tier,
      followers := p.followers, bio := p.bio, created_at := p.created_at,
      followed := followedViaConnectionIds.contains p.id
                    || followedViaMediaNames.contains p.name })

/-- The creators snapshot written to the Local Cache by `loadCreators`:
the code calls `setCachedCreators(creatorsWithFollowStatus)`, i.e. it persists
the very list it computed, derived `followed` flags included. -/
def creatorsCacheAfterLoad (db : DB) (userId : String) : List Creator :=
  loadCreators db userId

/-! ## loadMembers -/

/-- `Map.get` on the insertion-ordered association list modelling the JS `Map`. -/
def mapGet (m : List (String × Nat)) (k : String) : Option Nat :=
  (m.find? (fun p => p.1 == k)).map (fun p => p.2)

/-- `Map.set` on the association list: replace in place when the key is
present, append otherwise. -/
def mapSet (m : List (String × Nat)) (k : String) (v : Nat) : List (String × Nat) :=
  if m.any (fun p => p.1 == k) then
    m.map (fun p => if p.1 == k then (k, v) else p)
  else
    m ++ [(k, v)]

/-- The `connectionCounts` map of `loadMembers`: for every colleague edge,
increment the counter of both its `connected_user_id` and its `member_id`. -/
def connectionCounts (conns : List MCRow) : List (String × Nat) :=
  conns.foldl (fun m conn =>
    let m1 := mapSet m conn.connected_user_id
      ((mapGet m conn.connected_user_id).getD 0 + 1)
    mapSet m1 conn.member_id ((mapGet m1 conn.member_id).getD 0 + 1)) []

/-- `loadMembers`: read member profiles other than the current user (limit 50),
the colleague edges touching the current user (both directions), the full
system-wide colleague edge set (for counts), and the current user's outgoing
pending requests; build the member view records. -/
def loadMembers (db : DB) (userId : String) : List Member :=
  let data := (db.profiles.filter
    (fun p => p.account_type == "member" && p.id != userId)).take 50
  let outgoing := (db.member_connections.filter
    (fun r => r.member_id == userId && r.connection_type == "colleague")).map
    (fun r => r.connected_user_id)
  let incoming := (db.member_connections.filter
    (fun r => r.connected_user_id == userId && r.connection_type == "colleague")).map
    (fun r => r.member_id)
  let connectedWithIds := outgoing ++ incoming
  let allConnectionsData :=
    db.member_connections.filter (fun r => r.connection_type == "colleague")
  let counts := connectionCounts allConnectionsData
  let sentRequests := (db.connection_requests.filter
    (fun r => r.sender_id == userId && r.status == "pending")).map
    (fun r => r.recipient_id)
  data.map (fun p =>
    { id := p.id, name := p.name, avatar_url := p.avatar_url, tier := p.tier,
      bio := p.bio,
      followers := (mapGet counts p.id).getD 0,
      connected := connectedWithIds.contains p.id,
      requestStatus := if sentRequests.contains p.id then "pending" else "none" })

/-- The member snapshot written to the Local Cache by `loadMembers`
(`membersForCache`): the raw profile rows with `connected` reset to `false`. -/
def loadMembersCache (db : DB) (userId : String) : List CachedMember :=
  let data := (db.profiles.filter
    (fun p => p.account_type == "member" && p.id != userId)).take 50
  data.map (fun p =>
    { id := p.id, name := p.name, avatar_url := p.avatar_url, tier := p.tier,
      bio := p.bio, connected := false })

/-! ## Mutating handlers

Each handler takes explicit Boolean failure flags, one per gateway call it
makes, standing for that call returning an error object; a failed insert,
update or delete leaves the relation unchanged.  Each handler returns the
resulting database, the updated local list it rewrites, and the list of toasts
it enqueues (in order). -/

/-- Result of `handleFollowCreator` / `handleUnfollowCreator`. -/
structure FollowResult where
  db : DB
  creators : List Creator
  toasts : List ToastMsg
deriving DecidableEq

/-- `handleFollowCreator`: insert a `member_connections` follow edge and a
`media_page_follows` row; on double success flip the creator's `followed` flag
and toast success, otherwise toast an error. -/
def handleFollowCreator (userId : String) (creator : Creator) (db : DB)
    (creators : List Creator) (connectionError mediaError : Bool) : FollowResult :=
  let db1 := if connectionError then db else
    { db with member_connections := db.member_connections ++
        [{ member_id := userId, connected_user_id := creator.id,
           connection_type := "follow", status := "active" }] }
  let db2 := if mediaError then db1 else
    { db1 with media_page_follows := db1.media_page_follows ++
        [{ follower_id := userId, creator_name := creator.name }] }
  if !connectionError && !mediaError then
    { db := db2,
      creators := creators.map (fun c =>
        if c.id == creator.id then { c with followed := true } else c),
      toasts := [⟨"Now following " ++ creator.name, ToastKind.success⟩] }
  else
    { db := db2, creators := creators,
      toasts := [⟨"Failed to follow creator", ToastKind.error⟩] }

/-- `handleUnfollowCreator`: look the creator up in the local list (error toast
when absent); delete the `member_connections` rows keyed by
(member_id = current user, connected_user_id = creator id) — with no
`connection_type` filter — and the `media_page_follows` rows keyed by
(follower_id = current user, creator_name = the found creator's name); on
double success flip `followed` off and toast success, otherwise toast an
error. -/
def handleUnfollowCreator (userId creatorId : String) (db : DB)
    (creators : List Creator) (connectionError mediaError : Bool) : FollowResult :=
  match creators.find? (fun c => c.id == creatorId) with
  | none =>
      { db := db, creators := creators,
        toasts := [⟨"Creator not found", ToastKind.error⟩] }
  | some creatorToUnfollow =>
      let db1 := if connectionError then db else
        { db with member_connections := (db.member_connections.filter
            (fun r => !(r.member_id == userId && r.connected_user_id == creatorId))) }
      let db2 := if mediaError then db1 else
        { db1 with media_page_follows := (db1.media_page_follows.filter
            (fun r => !(r.follower_id == userId
                        && r.creator_name == creatorToUnfollow.name))) }
      if !connectionError && !mediaError then
        { db := db2,
          creators := creators.map (fun c =>
            if c.id == creatorId then { c with followed := false } else c),
          toasts := [⟨"Unfollowed creator", ToastKind.success⟩] }
      else
        { db := db2, creators := creators,
          toasts := [⟨"Failed to unfollow creator", ToastKind.error⟩] }

/-- Result of `handleConnectMember`. -/
structure ConnectResult where
  db : DB
  members : List Member
  toasts : List ToastMsg
deriving DecidableEq

/-- `handleConnectMember`: insert one pending `connection_requests` row
(`reqId` is the row id the store assigns); on success mark the member's
`requestStatus` pending and toast success, otherwise toast an error. -/
def handleConnectMember (userId : String) (member : Member) (reqId : String)
    (db : DB) (members : List Member) (insertError : Bool) : ConnectResult :=
  if insertError then
    { db := db, members := members,
      toasts := [⟨"Failed to send connection request", ToastKind.error⟩] }
  else
    { db := { db with connection_requests := db.connection_requests ++
        [{ rid := reqId, sender_id := userId, recipient_id := member.id,
           status := "pending" }] },
      members := members.map (fun m =>
        if m.id == member.id then { m with requestStatus := "pending" } else m),
      toasts := [⟨"Connection request sent to " ++ member.name,
                  ToastKind.success⟩] }

/-- Result of `handleAcceptConnectionRequest` /
`handleDeclineConnectionRequest`: database, toasts, and whether a delayed
member reload was scheduled. -/
structure AcceptResult where
  db : DB
  toasts : List ToastMsg
  reloaded : Bool
deriving DecidableEq

/-- `handleAcceptConnectionRequest`: look up the pending requests from
`memberId` to the current user (a failed lookup yields no rows); when one
exists, update its status to accepted, and only on a successful update insert
one colleague edge (member_id = `memberId`, connected_user_id = current user);
toast success only when the insert also succeeded.  A failed update or insert,
or an empty lookup, produces no toast. -/
def handleAcceptConnectionRequest (userId memberId : String) (db : DB)
    (lookupError updateError connectionError : Bool) : AcceptResult :=
  let requests := if lookupError then [] else
    db.connection_requests.filter (fun r =>
      r.sender_id == memberId && r.recipient_id == userId && r.status == "pending")
  match requests with
  | [] => { db := db, toasts := [], reloaded := false }
  | req :: _ =>
      if updateError then { db := db, toasts := [], reloaded := false }
      else
        let db1 := { db with connection_requests := (db.connection_requests.map
          (fun r => if r.rid == req.rid then { r with status := "accepted" } else r)) }
        if connectionError then { db := db1, toasts := [], reloaded := false }
        else
          { db := { db1 with member_connections := db1.member_connections ++
              [{ member_id := memberId, connected_user_id := userId,
                 connection_type := "colleague", status := "active" }] },
            toasts := [⟨"Connection accepted", ToastKind.success⟩],
            reloaded := true }

/-- `handleDeclineConnectionRequest`: same lookup as accept; update the first
pending request's status to rejected; toast success only on a successful
update; no edge is ever inserted. -/
def handleDeclineConnectionRequest (userId memberId : String) (db : DB)
    (lookupError updateError : Bool) : AcceptResult :=
  let requests := if lookupError then [] else
    db.connection_requests.filter (fun r =>
      r.sender_id == memberId && r.recipient_id == userId && r.status == "pending")
  match requests with
  | [] => { db := db, toasts := [], reloaded := false }
  | req :: _ =>
      if updateError then { db := db, toasts := [], reloaded := false }
      else
        { db := { db with connection_requests := (db.connection_requests.map
            (fun r => if r.rid == req.rid then { r with status := "rejected" } else r)) },
          toasts := [⟨"Connection request declined", ToastKind.success⟩],
          reloaded := true }

/-- Result of `handleDisconnectMember`. -/
structure DisconnectResult where
  db : DB
  members : List Member
  toasts : List ToastMsg
  reloaded : Bool
deriving DecidableEq

/-- `handleDisconnectMember`: delete the colleague edge in both directions
between the current user and `memberId`; treat the operation as successful
(success toast, local `connected := false`, reload) when at least one of the
two deletes returned no error, otherwise toast an error. -/
def handleDisconnectMember (userId memberId : String) (db : DB)
    (members : List Member) (error1 error2 : Bool) : DisconnectResult :=
  let db1 := if error1 then db else
    { db with member_connections := db.member_connections.filter (fun r =>
        !(r.member_id == userId && r.connected_user_id == memberId
          && r.connection_type == "colleague")) }
  let db2 := if error2 then db1 else
    { db1 with member_connections := db1.member_connections.filter (fun r =>
        !(r.member_id == memberId && r.connected_user_id == userId
          && r.connection_type == "colleague")) }
  if !error1 || !error2 then
    { db := db2,
      members := members.map (fun m =>
        if m.id == memberId then { m with connected := false } else m),
      toasts := [⟨"Disconnected", ToastKind.success⟩], reloaded := true }
  else
    { db := db2, members := members,
      toasts := [⟨"Failed to disconnect", ToastKind.error⟩], reloaded := false }

/-- JavaScript `String.prototype.trim`: strip leading and trailing
whitespace. -/
def jsTrim (s : String) : String :=
  String.mk ((s.data.dropWhile Char.isWhitespace).reverse.dropWhile
    Char.isWhitespace).reverse

/-- Result of `handleSendMessage`: database, the draft input after the call,
toasts, and whether the message list was reloaded. -/
structure SendResult where
  db : DB
  messageInput : String
  toasts : List ToastMsg
  reloaded : Bool
deriving DecidableEq

/-- `handleSendMessage`: a local no-op when no connection is selected or the
draft trims to empty; otherwise insert one `messages` row (current timestamp,
`read := false`) and, on success, clear the draft, reload the message list and
toast success.  A failed insert produces no toast. -/
def handleSendMessage (userId : String) (selectedConnection : Option Connection)
    (messageInput : String) (now : String) (db : DB)
    (insertError : Bool) : SendResult :=
  match selectedConnection with
  | none =>
      { db := db, messageInput := messageInput, toasts := [], reloaded := false }
  | some conn =>
      if jsTrim messageInput = "" then
        { db := db, messageInput := messageInput, toasts := [], reloaded := false }
      else if insertError then
        { db := db, messageInput := messageInput, toasts := [], reloaded := false }
      else
        { db := { db with messages := db.messages ++
            [{ sender_id := userId, recipient_id := conn.id,
               content := messageInput, timestamp := now, read := false }] },
          messageInput := "",
          toasts := [⟨"Message sent", ToastKind.success⟩], reloaded := true }

/-! ## Notification Dispatcher (addToast)

`addToast` appends a toast with a generated identifier to the queue and
schedules (via a one-shot timer) a removal, 4 time units later, that filters
the queue by that identifier.  The single-threaded event loop is modelled
explicitly: the state is the queue together with the pending timers; before an
add at time `t` every timer due at or before `t` fires (in scheduling order),
and observing the queue at time `T` first fires every timer due at or before
`T`. -/

/-- An `addToast` call: its time, the generated identifier, message, kind. -/
structure AddEv where
  time : Nat
  id : String
  msg : String
  kind : ToastKind
deriving DecidableEq

/-- A queued toast entry. -/
structure Toast where
  id : String
  kind : ToastKind
  message : String
deriving DecidableEq

/-- The entry `addToast` appends for a call. -/
def mkToast (a : AddEv) : Toast :=
  { id := a.id, kind := a.kind, message := a.msg }

/-- The removal timer `addToast` schedules for a call: fires at `time + 4`
and filters the queue by the call's identifier. -/
def schedOf (a : AddEv) : Nat × String :=
  (a.time + 4, a.id)

/-- Dispatcher state: the toast queue and the pending removal timers. -/
abbrev NotifSt := List Toast × List (Nat × String)

/-- Fire every pending timer due at or before `t`: each due timer removes the
entries carrying its identifier; fired timers leave the pending list. -/
def fireDue (t : Nat) (s : NotifSt) : NotifSt :=
  ((s.2.filter (fun p => decide (p.1 ≤ t))).foldl
      (fun q p => q.filter (fun e => e.id != p.2)) s.1,
   s.2.filter (fun p => !(decide (p.1 ≤ t))))

/-- Process one `addToast` call: run the timers due by its time, then append
the new entry and schedule its removal. -/
def addToastStep (s : NotifSt) (a : AddEv) : NotifSt :=
  let s1 := fireDue a.time s
  (s1.1 ++ [mkToast a], s1.2 ++ [schedOf a])

/-- The toast queue observed at time `T`, given the chronological trace of
`addToast` calls: process every call made by `T`, then fire every timer due
by `T`. -/
def toastQueueAt (adds : List AddEv) (T : Nat) : List Toast :=
  (fireDue T ((adds.filter (fun a => decide (a.time ≤ T))).foldl
    addToastStep ([], []))).1

/-! ## Concrete example data used by witnesses and counterexamples -/

/-- A creator profile row. -/
def aliceRow : ProfileRow :=
  { id := "c1", name := "Alice", avatar_url := "a.png", tier := "gold",
    followers := 7, bio := "art", created_at := "2024-01-01",
    account_type := "creator" }

/-- A member profile row. -/
def bobRow : ProfileRow :=
  { id := "m1", name := "Bob", avatar_url := "b.png", tier := "silver",
    followers := 0, bio := "dance", created_at := "2024-02-02",
    account_type := "member" }

/-- A second member profile row. -/
def caraRow : ProfileRow :=
  { id := "m2", name := "Cara", avatar_url := "c.png", tier := "bronze",
    followers := 0, bio := "music", created_at := "2024-03-03",
    account_type := "member" }

/-- Example database: the current user "u1" follows creator "c1" through the
social graph; members "m1" and "m2" are colleague-connected; "m1" has a
pending request to "u1". -/
def exDB : DB :=
  { profiles := [aliceRow, bobRow, caraRow],
    member_connections :=
      [{ member_id := "u1", connected_user_id := "c1",
         connection_type := "follow", status := "active" },
       { member_id := "m1", connected_user_id := "m2",
         connection_type := "colleague", status := "active" },
       { member_id := "u1", connected_user_id := "m1",
         connection_type := "colleague", status := "active" }],
    media_page_follows := [],
    connection_requests :=
      [{ rid := "r1", sender_id := "m1", recipient_id := "u1",
         status := "pending" }],
    messages := [] }

/-- An empty database. -/
def emptyDB : DB :=
  { profiles := [], member_connections := [], media_page_follows := [],
    connection_requests := [], messages := [] }

/-- The creator view record "u1" sees for Alice in `exDB`. -/
def aliceView : Creator :=
  { id := "c1", name := "Alice", avatar_url := "a.png", tier := "gold",
    followers := 7, bio := "art", created_at := "2024-01-01", followed := true }

/-- The member view record "u1" sees for Bob in `exDB`. -/
def bobView : Member :=
  { id := "m1", name := "Bob", avatar_url := "b.png", tier := "silver",
    bio := "dance", followers := 2, connected := true,
    requestStatus := "none" }

/-- A selected conversation partner for the send-message witnesses. -/
def bobConnection : Connection :=
  { id := "m1", name := "Bob", avatar_url := "b.png", role := "member",
    bio := "dance", isFollowing := true }

example : loadCreators exDB "u1" = [aliceView] := by decide
example : (loadMembers exDB "u1").length = 2 := by decide
example : bobView ∈ loadMembers exDB "u1" := by decide

/-! ## Claims -/

/-- Claim C1, counterexample: the claim says the cached creators list never
contains an entry with `followed = true`, but `loadCreators` persists
`creatorsWithFollowStatus` itself, so after one reconciliation pass on `exDB`
the Local Cache snapshot of creators has a followed entry. -/
theorem creators_cache_has_followed_entry :
    (creatorsCacheAfterLoad exDB "u1").any (fun c => c.followed) = true := by
  decide

/-- Claim C1, amended: the member snapshot persisted by `loadMembers` holds
only base profile fields with `connected` zeroed, so the cached members list
written by a reconciliation pass contains no entry with `connected = true`;
the creators snapshot, by contrast, is persisted with its derived `followed`
flags intact. -/
theorem members_cache_connected_zeroed (db : DB) (userId : String) :
    (loadMembersCache db userId).all (fun m => !m.connected) = true := by
  simp only [loadMembersCache, List.all_eq_true, List.mem_map]
  rintro m ⟨p, hp, rfl⟩
  rfl

/-- Claim C2: after a reconciliation pass, every loaded creator's `followed`
flag is true iff the current user has a `member_connections` follow edge to
that creator's id, or a `media_page_follows` row keyed by that creator's
display name. -/
theorem creator_followed_iff (db : DB) (userId : String) (c : Creator)
    (hc : c ∈ loadCreators db userId) :
    c.followed = true ↔
      ((∃ r ∈ db.member_connections, r.member_id = userId ∧
          r.connection_type = "follow" ∧ r.connected_user_id = c.id) ∨
       (∃ f ∈ db.media_page_follows, f.follower_id = userId ∧
          f.creator_name = c.name)) := by
  simp only [loadCreators, List.mem_map] at hc
  obtain ⟨p, hp, rfl⟩ := hc
  simp only [Bool.or_eq_true, List.contains_iff_exists_mem_beq, List.mem_map,
    List.mem_filter, Bool.and_eq_true, beq_iff_eq]
  constructor
  · rintro (⟨x, ⟨r, ⟨hr, hq1, hq2⟩, hrx⟩, hx⟩ | ⟨x, ⟨f, ⟨hf, hq⟩, hfx⟩, hx⟩)
    · exact Or.inl ⟨r, hr, hq1, hq2, by rw [hrx, ← hx]⟩
    · exact Or.inr ⟨f, hf, hq, by rw [hfx, ← hx]⟩
  · rintro (⟨r, hr, hq1, hq2, hid⟩ | ⟨f, hf, hq, hname⟩)
    · exact Or.inl ⟨r.connected_user_id, ⟨r, ⟨hr, hq1, hq2⟩, rfl⟩, hid.symm⟩
    · exact Or.inr ⟨f.creator_name, ⟨f, ⟨hf, hq⟩, rfl⟩, hname.symm⟩

/-- Claim C2, witness: Alice's view record is loaded for user "u1" from
`exDB`, and the equivalence holds there. -/
theorem creator_followed_iff_witness :
    aliceView ∈ loadCreators exDB "u1" ∧
      (aliceView.followed = true ↔
        ((∃ r ∈ exDB.member_connections, r.member_id = "u1" ∧
            r.connection_type = "follow" ∧ r.connected_user_id = aliceView.id) ∨
         (∃ f ∈ exDB.media_page_follows, f.follower_id = "u1" ∧
            f.creator_name = aliceView.name))) :=
  ⟨by decide, creator_followed_iff exDB "u1" aliceView (by decide)⟩


/-! ### The connection-count fold -/

theorem mapGet_replace_present (m : List (String × Nat)) (k : String) (v : Nat)
    (hany : m.any (fun p => p.1 == k) = true) :
    mapGet (m.map (fun p => if p.1 == k then (k, v) else p)) k = some v := by
  induction m with
  | nil => simp at hany
  | cons p m ih =>
      by_cases hp : p.1 = k
      · simp [mapGet, hp]
      · have hany' : m.any (fun q => q.1 == k) = true := by
          simp only [List.any_cons, Bool.or_eq_true] at hany
          rcases hany with h | h
          · exact absurd (by simpa using h) hp
          · exact h
        have hrepl : (if (p.1 == k) = true then (k, v) else p) = p := by simp [hp]
        simp only [List.map_cons, hrepl, mapGet]
        rw [List.find?_cons_of_neg _ (by simp [hp])]
        simpa [mapGet] using ih hany'

theorem mapGet_replace_other (m : List (String × Nat)) (k : String) (v : Nat)
    (x : String) (hx : x ≠ k) :
    mapGet (m.map (fun p => if p.1 == k then (k, v) else p)) x = mapGet m x := by
  induction m with
  | nil => rfl
  | cons p m ih =>
      by_cases hp : p.1 = k
      · have hrepl : (if (p.1 == k) = true then (k, v) else p) = (k, v) := by simp [hp]
        simp only [List.map_cons, hrepl, mapGet]
        rw [List.find?_cons_of_neg _ (by simp; exact Ne.symm hx),
          List.find?_cons_of_neg _ (by simp [hp]; exact Ne.symm hx)]
        simpa [mapGet] using ih
      · have hrepl : (if (p.1 == k) = true then (k, v) else p) = p := by simp [hp]
        simp only [List.map_cons, hrepl, mapGet]
        by_cases hpx : p.1 = x
        · rw [List.find?_cons_of_pos _ (by simp [hpx]),
            List.find?_cons_of_pos _ (by simp [hpx])]
        · rw [List.find?_cons_of_neg _ (by simp [hpx]),
            List.find?_cons_of_neg _ (by simp [hpx])]
          simpa [mapGet] using ih

theorem mapGet_append_absent (m : List (String × Nat)) (k : String) (v : Nat)
    (x : String) (hany : ¬ m.any (fun p => p.1 == k) = true) :
    mapGet (m ++ [(k, v)]) x = if x = k then some v else mapGet m x := by
  simp only [mapGet, List.find?_append]
  by_cases hx : x = k
  · subst hx
    have hnone : m.find? (fun p => p.1 == x) = none := by
      rw [List.find?_eq_none]
      intro q hq hcon
      exact hany (List.any_eq_true.mpr ⟨q, hq, hcon⟩)
    simp [hnone]
  · have hk : (k == x) = false := by
      rw [beq_eq_false_iff_ne]; exact Ne.symm hx
    have hone : List.find? (fun p => p.1 == x) [((k : String), v)] = none := by
      simp [List.find?, hk]
    simp [hone, hx]

theorem mapGet_mapSet (m : List (String × Nat)) (k : String) (v : Nat)
    (x : String) :
    mapGet (mapSet m k v) x = if x = k then some v else mapGet m x := by
  unfold mapSet
  by_cases hany : m.any (fun p => p.1 == k) = true
  · rw [if_pos hany]
    by_cases hx : x = k
    · subst hx; rw [if_pos rfl]; exact mapGet_replace_present m x v hany
    · rw [if_neg hx]; exact mapGet_replace_other m k v x hx
  · rw [if_neg hany]
    exact mapGet_append_absent m k v x hany

theorem mapGet_incr (m : List (String × Nat)) (k x : String) :
    (mapGet (mapSet m k ((mapGet m k).getD 0 + 1)) x).getD 0
      = (mapGet m x).getD 0 + (if x = k then 1 else 0) := by
  rw [mapGet_mapSet]
  by_cases h : x = k
  · subst h; simp
  · simp [h]

theorem connectionCounts_go (conns : List MCRow) (acc : List (String × Nat)) (x : String) :
    (mapGet (conns.foldl (fun m conn =>
        let m1 := mapSet m conn.connected_user_id
          ((mapGet m conn.connected_user_id).getD 0 + 1)
        mapSet m1 conn.member_id ((mapGet m1 conn.member_id).getD 0 + 1)) acc) x).getD 0
      = (mapGet acc x).getD 0
        + ((conns.filter (fun r => r.member_id == x)).length
           + (conns.filter (fun r => r.connected_user_id == x)).length) := by
  induction conns generalizing acc with
  | nil => simp
  | cons c cs ih =>
      simp only [List.foldl_cons]
      rw [ih, mapGet_incr, mapGet_incr]
      simp only [List.filter_cons]
      rcases eq_or_ne c.member_id x with h1 | h1 <;>
        rcases eq_or_ne c.connected_user_id x with h2 | h2
      · simp [h1, h2]; omega
      · simp [h1, h2, Ne.symm h2]; omega
      · simp [h1, Ne.symm h1, h2]; omega
      · simp [h1, Ne.symm h1, h2, Ne.symm h2]

/-- Claim C3: after a reconciliation pass, every loaded member's displayed
live connection count equals the number of colleague edges in the full
system-wide edge set where the member is the source plus the number where it
is the target; the right-hand side never mentions the viewing user, so the
value is the same for every viewer. -/
theorem member_connection_count (db : DB) (userId : String) (m : Member)
    (hm : m ∈ loadMembers db userId) :
    m.followers =
      ((db.member_connections.filter (fun r => r.connection_type == "colleague")).filter
          (fun r => r.member_id == m.id)).length
        + ((db.member_connections.filter (fun r => r.connection_type == "colleague")).filter
          (fun r => r.connected_user_id == m.id)).length := by
  simp only [loadMembers, List.mem_map] at hm
  obtain ⟨p, hp, rfl⟩ := hm
  show (mapGet (connectionCounts _) p.id).getD 0 = _
  unfold connectionCounts
  rw [connectionCounts_go]
  simp [mapGet]

/-- Claim C3, witness: Bob's view record is loaded for user "u1" from `exDB`
and its displayed count is the bidirectional colleague-edge count. -/
theorem member_connection_count_witness :
    bobView ∈ loadMembers exDB "u1" ∧
      bobView.followers =
        ((exDB.member_connections.filter (fun r => r.connection_type == "colleague")).filter
            (fun r => r.member_id == bobView.id)).length
          + ((exDB.member_connections.filter (fun r => r.connection_type == "colleague")).filter
            (fun r => r.connected_user_id == bobView.id)).length :=
  ⟨by decide, member_connection_count exDB "u1" bobView (by decide)⟩

/-- A member profile rendered as a creator view record, used where a handler
is exercised against a member id. -/
def bobAsCreator : Creator :=
  { id := "m1", name := "Bob", avatar_url := "b.png", tier := "silver",
    followers := 0, bio := "dance", created_at := "2024-02-02",
    followed := false }

/-- Claim C4, counterexample: the claim says every gateway failure of a
mutating operation is surfaced as an error toast, but a failed insert inside
`handleSendMessage` enqueues no toast at all. -/
theorem send_message_failure_not_surfaced :
    (handleSendMessage "u1" (some bobConnection) "hello" "t1" exDB true).toasts
      = [] := by
  decide

/-- Claim C4, amended: `handleFollowCreator`, `handleUnfollowCreator` (with
the creator present locally) and `handleConnectMember` surface every returned
gateway failure as an error toast, and `handleDisconnectMember` surfaces one
exactly when both directional deletes fail; but the accept and decline
handlers never enqueue an error toast for a returned lookup, update or insert
failure, and a failed `handleSendMessage` insert enqueues no toast. -/
theorem mutation_failures_surfaced :
    (∀ (userId : String) (creator : Creator) (db : DB) (creators : List Creator)
        (ce me : Bool), (ce = true ∨ me = true) →
        (handleFollowCreator userId creator db creators ce me).toasts
          = [⟨"Failed to follow creator", ToastKind.error⟩])
    ∧ (∀ (userId creatorId : String) (db : DB) (creators : List Creator)
        (c : Creator) (ce me : Bool),
        creators.find? (fun x => x.id == creatorId) = some c →
        (ce = true ∨ me = true) →
        (handleUnfollowCreator userId creatorId db creators ce me).toasts
          = [⟨"Failed to unfollow creator", ToastKind.error⟩])
    ∧ (∀ (userId : String) (member : Member) (reqId : String) (db : DB)
        (members : List Member),
        (handleConnectMember userId member reqId db members true).toasts
          = [⟨"Failed to send connection request", ToastKind.error⟩])
    ∧ (∀ (userId memberId : String) (db : DB) (members : List Member),
        (handleDisconnectMember userId memberId db members true true).toasts
          = [⟨"Failed to disconnect", ToastKind.error⟩])
    ∧ (∀ (userId memberId : String) (db : DB) (le ue ce : Bool),
        ((handleAcceptConnectionRequest userId memberId db le ue ce).toasts.all
          (fun t => t.kind != ToastKind.error)) = true)
    ∧ (∀ (userId memberId : String) (db : DB) (le ue : Bool),
        ((handleDeclineConnectionRequest userId memberId db le ue).toasts.all
          (fun t => t.kind != ToastKind.error)) = true)
    ∧ (∀ (userId : String) (sel : Option Connection) (input now : String)
        (db : DB),
        (handleSendMessage userId sel input now db true).toasts = []) := by
  refine ⟨?_, ?_, ?_, ?_, ?_, ?_, ?_⟩
  · intro userId creator db creators ce me h
    rcases h with h | h <;> subst h <;> simp [handleFollowCreator]
  · intro userId creatorId db creators c ce me hfind h
    unfold handleUnfollowCreator
    rw [hfind]
    rcases h with h | h <;> subst h <;> simp
  · intro userId member reqId db members
    simp [handleConnectMember]
  · intro userId memberId db members
    simp [handleDisconnectMember]
  · intro userId memberId db le ue ce
    unfold handleAcceptConnectionRequest
    rcases hreq : (if le = true then ([] : List CRRow) else
        db.connection_requests.filter (fun r =>
          r.sender_id == memberId && r.recipient_id == userId
            && r.status == "pending")) with _ | ⟨req, rest⟩
    · rfl
    · cases ue with
      | true => rfl
      | false =>
          cases ce with
          | true => rfl
          | false => rfl
  · intro userId memberId db le ue
    unfold handleDeclineConnectionRequest
    rcases hreq : (if le = true then ([] : List CRRow) else
        db.connection_requests.filter (fun r =>
          r.sender_id == memberId && r.recipient_id == userId
            && r.status == "pending")) with _ | ⟨req, rest⟩
    · rfl
    · cases ue with
      | true => rfl
      | false => rfl
  · intro userId sel input now db
    unfold handleSendMessage
    cases sel with
    | none => rfl
    | some conn =>
        by_cases h : jsTrim input = ""
        · simp [h]
        · simp [h]

/-- Claim C4, witness: a failed first insert in `handleFollowCreator`
produces exactly the error toast. -/
theorem mutation_failures_surfaced_witness :
    (true = true ∨ false = true) ∧
      (handleFollowCreator "u1" aliceView exDB [] true false).toasts
        = [⟨"Failed to follow creator", ToastKind.error⟩] :=
  ⟨Or.inl rfl,
    mutation_failures_surfaced.1 "u1" aliceView exDB [] true false (Or.inl rfl)⟩

/-- Claim C5: `handleAcceptConnectionRequest` looks up the pending request
from `memberId` to the current user; when one exists and the calls succeed it
marks that request accepted and appends exactly one colleague edge
(member_id = `memberId`, connected_user_id = current user); when none exists
it performs no mutation and enqueues no toast; and when the status update
fails nothing at all is mutated (so no edge is inserted). -/
theorem accept_request_contract (userId memberId : String) (db : DB) :
    ((db.connection_requests.filter (fun r =>
        r.sender_id == memberId && r.recipient_id == userId
          && r.status == "pending")) = [] →
      handleAcceptConnectionRequest userId memberId db false false false
        = { db := db, toasts := [], reloaded := false })
    ∧ (∀ req rest,
        (db.connection_requests.filter (fun r =>
          r.sender_id == memberId && r.recipient_id == userId
            && r.status == "pending")) = req :: rest →
        handleAcceptConnectionRequest userId memberId db false false false
          = { db := { db with
                connection_requests := (db.connection_requests.map (fun r =>
                  if r.rid == req.rid then { r with status := "accepted" } else r)),
                member_connections := db.member_connections ++
                  [{ member_id := memberId, connected_user_id := userId,
                     connection_type := "colleague", status := "active" }] },
              toasts := [⟨"Connection accepted", ToastKind.success⟩],
              reloaded := true })
    ∧ (∀ ce, (handleAcceptConnectionRequest userId memberId db false true ce).db
          = db) := by
  refine ⟨?_, ?_, ?_⟩
  · intro h
    simp [handleAcceptConnectionRequest, h]
  · intro req rest h
    simp [handleAcceptConnectionRequest, h]
  · intro ce
    unfold handleAcceptConnectionRequest
    rcases hreq : (if (false = true) then ([] : List CRRow) else
        db.connection_requests.filter (fun r =>
          r.sender_id == memberId && r.recipient_id == userId
            && r.status == "pending")) with _ | ⟨req, rest⟩
    · rfl
    · rfl

/-- Claim C5, witness: in `exDB` the member "m1" has a pending request "r1"
to "u1"; accepting marks it accepted and appends the one colleague edge. -/
theorem accept_request_contract_witness :
    ((exDB.connection_requests.filter (fun r =>
        r.sender_id == "m1" && r.recipient_id == "u1"
          && r.status == "pending"))
      = [{ rid := "r1", sender_id := "m1", recipient_id := "u1",
           status := "pending" }]) ∧
      handleAcceptConnectionRequest "u1" "m1" exDB false false false
        = { db := { exDB with
              connection_requests := (exDB.connection_requests.map (fun r =>
                if r.rid == "r1" then { r with status := "accepted" } else r)),
              member_connections := exDB.member_connections ++
                [{ member_id := "m1", connected_user_id := "u1",
                   connection_type := "colleague", status := "active" }] },
            toasts := [⟨"Connection accepted", ToastKind.success⟩],
            reloaded := true } :=
  ⟨by decide,
    (accept_request_contract "u1" "m1" exDB).2.1
      { rid := "r1", sender_id := "m1", recipient_id := "u1",
        status := "pending" } [] (by decide)⟩

/-- Claim C6: following then unfollowing the same creator (all four gateway
calls succeeding) is a round trip: every local entry for that creator ends
with `followed = false`, and neither follow relation retains an edge for the
(current user, creator) pair. -/
theorem follow_unfollow_roundtrip (userId : String) (c : Creator) (db : DB)
    (creators : List Creator)
    (hfind : creators.find? (fun x => x.id == c.id) = some c) :
    (∀ x ∈ (handleUnfollowCreator userId c.id
        (handleFollowCreator userId c db creators false false).db
        (handleFollowCreator userId c db creators false false).creators
        false false).creators, x.id = c.id → x.followed = false)
    ∧ ((handleUnfollowCreator userId c.id
        (handleFollowCreator userId c db creators false false).db
        (handleFollowCreator userId c db creators false false).creators
        false false).db.member_connections.filter
          (fun r => r.member_id == userId && r.connected_user_id == c.id
            && r.connection_type == "follow")) = []
    ∧ ((handleUnfollowCreator userId c.id
        (handleFollowCreator userId c db creators false false).db
        (handleFollowCreator userId c db creators false false).creators
        false false).db.media_page_follows.filter
          (fun r => r.follower_id == userId && r.creator_name == c.name)) = [] := by
  have hcomp : ((fun x : Creator => x.id == c.id) ∘
      (fun x => if x.id == c.id then { x with followed := true } else x))
        = (fun x : Creator => x.id == c.id) := by
    funext x
    by_cases h : (x.id == c.id) = true <;> simp [Function.comp, h]
  have hfind2 : (handleFollowCreator userId c db creators false
      false).creators.find? (fun x => x.id == c.id)
        = some { c with followed := true } := by
    show (creators.map (fun x =>
      if x.id == c.id then { x with followed := true } else x)).find?
        (fun x => x.id == c.id) = some { c with followed := true }
    rw [List.find?_map, hcomp, hfind]
    simp
  unfold handleUnfollowCreator
  rw [hfind2]
  refine ⟨?_, ?_, ?_⟩
  · intro x hx hid
    have hx2 : x ∈ ((handleFollowCreator userId c db creators false
        false).creators.map
          (fun y => if y.id == c.id then { y with followed := false } else y)) := hx
    simp only [List.mem_map] at hx2
    obtain ⟨y, hy, hxy⟩ := hx2
    subst hxy
    by_cases h : (y.id == c.id) = true
    · simp [h]
    · rw [if_neg h] at hid ⊢
      exact absurd (by simp [hid]) h
  · show (((handleFollowCreator userId c db creators false
        false).db.member_connections.filter
          (fun r => !(r.member_id == userId && r.connected_user_id == c.id))).filter
          (fun r => r.member_id == userId && r.connected_user_id == c.id
            && r.connection_type == "follow")) = []
    rw [List.filter_eq_nil_iff]
    intro r hr
    rw [List.mem_filter] at hr
    rcases hr with ⟨hmem, hkeep⟩
    cases hA : r.member_id == userId <;>
      cases hB : r.connected_user_id == c.id <;>
      cases hC : r.connection_type == "follow" <;>
      simp [hA, hB, hC] at hkeep ⊢
  · show (((handleFollowCreator userId c db creators false
        false).db.media_page_follows.filter
          (fun r => !(r.follower_id == userId && r.creator_name == c.name))).filter
          (fun r => r.follower_id == userId && r.creator_name == c.name)) = []
    rw [List.filter_eq_nil_iff]
    intro r hr
    rw [List.mem_filter] at hr
    rcases hr with ⟨hmem, hkeep⟩
    cases hA : r.follower_id == userId <;>
      cases hB : r.creator_name == c.name <;>
      simp [hA, hB] at hkeep ⊢

/-- Claim C6, witness: the round trip for Alice's creator record over the
empty database. -/
theorem follow_unfollow_roundtrip_witness :
    ([aliceView].find? (fun x => x.id == aliceView.id) = some aliceView) ∧
      ((∀ x ∈ (handleUnfollowCreator "u1" aliceView.id
          (handleFollowCreator "u1" aliceView emptyDB [aliceView] false false).db
          (handleFollowCreator "u1" aliceView emptyDB [aliceView] false
            false).creators false false).creators,
          x.id = aliceView.id → x.followed = false)
        ∧ ((handleUnfollowCreator "u1" aliceView.id
            (handleFollowCreator "u1" aliceView emptyDB [aliceView] false false).db
            (handleFollowCreator "u1" aliceView emptyDB [aliceView] false
              false).creators false false).db.member_connections.filter
              (fun r => r.member_id == "u1" && r.connected_user_id == aliceView.id
                && r.connection_type == "follow")) = []
        ∧ ((handleUnfollowCreator "u1" aliceView.id
            (handleFollowCreator "u1" aliceView emptyDB [aliceView] false false).db
            (handleFollowCreator "u1" aliceView emptyDB [aliceView] false
              false).creators false false).db.media_page_follows.filter
              (fun r => r.follower_id == "u1"
                && r.creator_name == aliceView.name)) = []) :=
  ⟨by decide,
    follow_unfollow_roundtrip "u1" aliceView emptyDB [aliceView] (by decide)⟩

/-- Claim C7: `handleDisconnectMember` reports success (the success toast)
iff at least one of the two directional deletes returns no failure, reports
failure exactly when both fail, and on a pair with no colleague edge in
either direction the double delete leaves the database unchanged — a safe
no-op that still reports success. -/
theorem disconnect_contract (userId memberId : String) (db : DB)
    (members : List Member) (e1 e2 : Bool) :
    ((e1 = false ∨ e2 = false) →
      (handleDisconnectMember userId memberId db members e1 e2).toasts
        = [⟨"Disconnected", ToastKind.success⟩])
    ∧ ((e1 = true ∧ e2 = true) →
      (handleDisconnectMember userId memberId db members e1 e2).toasts
        = [⟨"Failed to disconnect", ToastKind.error⟩])
    ∧ ((db.member_connections.filter (fun r =>
          (r.member_id == userId && r.connected_user_id == memberId
            || r.member_id == memberId && r.connected_user_id == userId)
          && r.connection_type == "colleague")) = [] →
      (handleDisconnectMember userId memberId db members false false).db = db) := by
  refine ⟨?_, ?_, ?_⟩
  · rintro (h | h) <;> subst h <;> simp [handleDisconnectMember]
  · rintro ⟨h1, h2⟩
    subst h1; subst h2
    simp [handleDisconnectMember]
  · intro h
    rw [List.filter_eq_nil_iff] at h
    have h1 : db.member_connections.filter (fun r =>
        !(r.member_id == userId && r.connected_user_id == memberId
          && r.connection_type == "colleague")) = db.member_connections := by
      rw [List.filter_eq_self]
      intro r hr
      have hc := h r hr
      cases hA : r.member_id == userId <;>
        cases hB : r.connected_user_id == memberId <;>
        cases hC : r.connection_type == "colleague" <;>
        simp [hA, hB, hC] at hc ⊢
    have h2 : db.member_connections.filter (fun r =>
        !(r.member_id == memberId && r.connected_user_id == userId
          && r.connection_type == "colleague")) = db.member_connections := by
      rw [List.filter_eq_self]
      intro r hr
      have hc := h r hr
      cases hA : r.member_id == memberId <;>
        cases hB : r.connected_user_id == userId <;>
        cases hC : r.connection_type == "colleague" <;>
        simp [hA, hB, hC] at hc ⊢
    show ({ db with member_connections :=
        ((db.member_connections.filter (fun r =>
            !(r.member_id == userId && r.connected_user_id == memberId
              && r.connection_type == "colleague"))).filter (fun r =>
            !(r.member_id == memberId && r.connected_user_id == userId
              && r.connection_type == "colleague"))) } : DB) = db
    rw [h1, h2]

/-- Claim C7, witness: on the empty database a disconnect succeeds in both
branches of the contract. -/
theorem disconnect_contract_witness :
    ((emptyDB.member_connections.filter (fun r =>
        (r.member_id == "u1" && r.connected_user_id == "m1"
          || r.member_id == "m1" && r.connected_user_id == "u1")
        && r.connection_type == "colleague")) = []) ∧
      (handleDisconnectMember "u1" "m1" emptyDB [] false false).db = emptyDB :=
  ⟨rfl, (disconnect_contract "u1" "m1" emptyDB [] false false).2.2 rfl⟩

/-- Claim C8: `handleSendMessage` is a local no-op (no row, draft unchanged,
no toast, no reload) when no connection is selected or the draft trims to
empty; otherwise, with a successful insert, it appends exactly one message
row carrying the current timestamp and `read = false`, clears the draft and
reloads the message list. -/
theorem send_message_contract (userId : String) (sel : Option Connection)
    (input now : String) (db : DB) (ie : Bool) :
    ((sel = none ∨ jsTrim input = "") →
      handleSendMessage userId sel input now db ie
        = { db := db, messageInput := input, toasts := [], reloaded := false })
    ∧ (∀ conn, sel = some conn → jsTrim input ≠ "" →
        handleSendMessage userId sel input now db false
          = { db := { db with messages := db.messages ++
                [{ sender_id := userId, recipient_id := conn.id, content := input,
                   timestamp := now, read := false }] },
              messageInput := "",
              toasts := [⟨"Message sent", ToastKind.success⟩],
              reloaded := true }) := by
  constructor
  · rintro (h | h)
    · subst h; rfl
    · cases sel with
      | none => rfl
      | some conn => simp [handleSendMessage, h]
  · intro conn hsel h
    subst hsel
    simp [handleSendMessage, h]

/-- Claim C8, witness: sending "hello" to Bob appends the one message row and
clears the draft. -/
theorem send_message_contract_witness :
    (jsTrim "hello" ≠ "") ∧
      handleSendMessage "u1" (some bobConnection) "hello" "t1" exDB false
        = { db := { exDB with messages := exDB.messages ++
              [{ sender_id := "u1", recipient_id := bobConnection.id,
                 content := "hello", timestamp := "t1", read := false }] },
            messageInput := "",
            toasts := [⟨"Message sent", ToastKind.success⟩], reloaded := true } :=
  ⟨by decide,
    (send_message_contract "u1" (some bobConnection) "hello" "t1" exDB
      false).2 bobConnection rfl (by decide)⟩

/-- Claim C9: the `member_connections` delete of `handleUnfollowCreator` is
keyed only by (member_id = current user, connected_user_id = creator id),
with no `connection_type` filter, so afterwards no edge of any kind from the
current user to that id remains — colleague edges included. -/
theorem unfollow_delete_ignores_edge_kind (userId creatorId : String) (db : DB)
    (creators : List Creator) (c : Creator)
    (hfind : creators.find? (fun x => x.id == creatorId) = some c) :
    (handleUnfollowCreator userId creatorId db creators false
        false).db.member_connections
      = db.member_connections.filter
          (fun r => !(r.member_id == userId && r.connected_user_id == creatorId))
    ∧ ∀ r ∈ (handleUnfollowCreator userId creatorId db creators false
        false).db.member_connections,
        ¬(r.member_id = userId ∧ r.connected_user_id = creatorId) := by
  unfold handleUnfollowCreator
  rw [hfind]
  refine ⟨rfl, ?_⟩
  intro r hr
  have hr2 : r ∈ db.member_connections.filter
      (fun r => !(r.member_id == userId && r.connected_user_id == creatorId)) := hr
  rw [List.mem_filter] at hr2
  rintro ⟨h1, h2⟩
  simp [h1, h2] at hr2

/-- Claim C9, witness: unfollowing member id "m1" from `exDB` removes the
colleague edge "u1" → "m1" even though no follow edge to "m1" exists. -/
theorem unfollow_delete_ignores_edge_kind_witness :
    ([bobAsCreator].find? (fun x => x.id == "m1") = some bobAsCreator) ∧
      ((handleUnfollowCreator "u1" "m1" exDB [bobAsCreator] false
          false).db.member_connections
        = exDB.member_connections.filter
            (fun r => !(r.member_id == "u1" && r.connected_user_id == "m1"))
      ∧ ∀ r ∈ (handleUnfollowCreator "u1" "m1" exDB [bobAsCreator] false
          false).db.member_connections,
          ¬(r.member_id = "u1" ∧ r.connected_user_id = "m1")) :=
  ⟨by decide,
    unfollow_delete_ignores_edge_kind "u1" "m1" exDB [bobAsCreator]
      bobAsCreator (by decide)⟩

/-! ### Notification Dispatcher lemmas -/

theorem foldl_filter_all (rs : List (Nat × String)) (q : List Toast) :
    rs.foldl (fun q p => q.filter (fun e => e.id != p.2)) q
      = q.filter (fun e => rs.all (fun p => e.id != p.2)) := by
  induction rs generalizing q with
  | nil => simp
  | cons r rs ih =>
      rw [List.foldl_cons, ih, List.filter_filter]
      apply List.filter_congr
      intro e he
      simp [List.all_cons, Bool.and_comm]

theorem sched_all_pred (L : List AddEv) (t : Nat) (a : AddEv)
    (hnd : (L.map (fun x => x.id)).Nodup) (ha : a ∈ L) :
    (((L.map schedOf).filter (fun p => decide (p.1 ≤ t))).all
        (fun p => a.id != p.2))
      = decide (t < a.time + 4) := by
  by_cases h : t < a.time + 4
  · rw [decide_eq_true h, List.all_eq_true]
    intro p hp
    rw [List.mem_filter] at hp
    rcases hp with ⟨hp, hple⟩
    rw [List.mem_map] at hp
    obtain ⟨x, hx, rfl⟩ := hp
    have hxa : ¬ x = a := by
      intro heq
      subst heq
      rw [decide_eq_true_eq] at hple
      simp only [schedOf] at hple
      omega
    have hid : ¬ x.id = a.id := by
      intro hid
      exact hxa (List.inj_on_of_nodup_map hnd hx ha hid)
    simp only [schedOf, bne_iff_ne, ne_eq]
    exact fun hc => hid hc.symm
  · rw [decide_eq_false h, List.all_eq_false]
    refine ⟨schedOf a, ?_, ?_⟩
    · rw [List.mem_filter]
      refine ⟨List.mem_map_of_mem schedOf ha, ?_⟩
      rw [decide_eq_true_eq]
      simp only [schedOf]
      omega
    · simp [schedOf]

theorem fireDue_state (L : List AddEv) (t : Nat)
    (hnd : (L.map (fun x => x.id)).Nodup) :
    fireDue t (L.map mkToast, L.map schedOf)
      = ((L.filter (fun x => decide (t < x.time + 4))).map mkToast,
         (L.filter (fun x => decide (t < x.time + 4))).map schedOf) := by
  unfold fireDue
  rw [Prod.mk.injEq]
  constructor
  · rw [foldl_filter_all, List.filter_map]
    congr 1
    apply List.filter_congr
    intro x hx
    show (((L.map schedOf).filter (fun p => decide (p.1 ≤ t))).all
        (fun p => (mkToast x).id != p.2)) = decide (t < x.time + 4)
    exact sched_all_pred L t x hnd hx
  · rw [List.filter_map]
    congr 1
    apply List.filter_congr
    intro x hx
    show (!(decide ((schedOf x).1 ≤ t))) = decide (t < x.time + 4)
    simp only [schedOf]
    by_cases h : x.time + 4 ≤ t
    · rw [decide_eq_true h, decide_eq_false (by omega)]
      rfl
    · rw [decide_eq_false h, decide_eq_true (by omega)]
      rfl

theorem toast_foldl_char (adds : List AddEv) (L : List AddEv) (T : Nat)
    (hT : ∀ a ∈ adds, a.time ≤ T)
    (hnd : ((L ++ adds).map (fun x => x.id)).Nodup) :
    (fireDue T (adds.foldl addToastStep (L.map mkToast, L.map schedOf))).1
      = ((L ++ adds).filter (fun a => decide (T < a.time + 4))).map mkToast := by
  induction adds generalizing L with
  | nil =>
      rw [List.foldl_nil, fireDue_state L T (by simpa using hnd)]
      simp
  | cons a rest ih =>
      rw [List.foldl_cons]
      have hndL : (L.map (fun x => x.id)).Nodup := by
        have hs : (L.map (fun x => x.id)).Sublist
            ((L ++ a :: rest).map (fun x => x.id)) :=
          List.Sublist.map _ (List.sublist_append_left L (a :: rest))
        exact hnd.sublist hs
      have hstep : addToastStep (L.map mkToast, L.map schedOf) a
          = ((L.filter (fun x => decide (a.time < x.time + 4)) ++ [a]).map mkToast,
             (L.filter (fun x => decide (a.time < x.time + 4)) ++ [a]).map schedOf) := by
        unfold addToastStep
        rw [fireDue_state L a.time hndL]
        simp
      rw [hstep]
      have hsub : ((L.filter (fun x => decide (a.time < x.time + 4)) ++ [a])
          ++ rest).Sublist (L ++ a :: rest) := by
        rw [List.append_assoc, List.singleton_append]
        exact (List.filter_sublist L).append_right (a :: rest)
      have hnd2 : (((L.filter (fun x => decide (a.time < x.time + 4)) ++ [a])
          ++ rest).map (fun x => x.id)).Nodup :=
        hnd.sublist (List.Sublist.map _ hsub)
      rw [ih (L.filter (fun x => decide (a.time < x.time + 4)) ++ [a])
        (fun b hb => hT b (List.mem_cons_of_mem a hb)) hnd2]
      have hle : a.time ≤ T := hT a (List.mem_cons_self a rest)
      congr 1
      have heq : (L.filter (fun x => decide (a.time < x.time + 4))).filter
          (fun x => decide (T < x.time + 4))
            = L.filter (fun x => decide (T < x.time + 4)) := by
        rw [List.filter_filter]
        apply List.filter_congr
        intro x hx
        by_cases h : T < x.time + 4
        · rw [decide_eq_true h, decide_eq_true (by omega : a.time < x.time + 4)]
          rfl
        · rw [decide_eq_false h]
          simp
      calc ((L.filter (fun x => decide (a.time < x.time + 4)) ++ [a]) ++ rest).filter
            (fun x => decide (T < x.time + 4))
          = (L.filter (fun x => decide (a.time < x.time + 4))).filter
              (fun x => decide (T < x.time + 4))
            ++ (a :: rest).filter (fun x => decide (T < x.time + 4)) := by
            rw [List.append_assoc, List.singleton_append, List.filter_append]
        _ = L.filter (fun x => decide (T < x.time + 4))
            ++ (a :: rest).filter (fun x => decide (T < x.time + 4)) := by rw [heq]
        _ = (L ++ a :: rest).filter (fun x => decide (T < x.time + 4)) := by
            rw [List.filter_append]

/-- Claim C10: over any chronological trace of `addToast` calls with
pairwise distinct generated identifiers, the queue observed at any time `T`
consists exactly of the toasts added at a time `t ≤ T` with `T < t + 4`, in
order of addition: each toast is appended at the end, is removed exactly 4
time units after its creation, and each removal, filtering only by the
toast's own identifier, leaves every concurrently queued toast in place until
its own expiry. -/
theorem toast_queue_char (adds : List AddEv) (T : Nat)
    (hchrono : List.Chain' (fun a b => a.time ≤ b.time) adds)
    (hids : (adds.map (fun a => a.id)).Nodup) :
    toastQueueAt adds T
      = ((adds.filter (fun a => decide (a.time ≤ T)
          && decide (T < a.time + 4))).map mkToast) := by
  unfold toastQueueAt
  have hfil : (adds.filter (fun a => decide (a.time ≤ T))).Sublist adds :=
    List.filter_sublist adds
  have h := toast_foldl_char (adds.filter (fun a => decide (a.time ≤ T))) [] T
    (fun a ha => by
      have := List.of_mem_filter ha
      rwa [decide_eq_true_eq] at this)
    (by
      have : ((adds.filter (fun a => decide (a.time ≤ T))).map
          (fun x => x.id)).Nodup := hids.sublist (List.Sublist.map _ hfil)
      simpa using this)
  simp only [List.map_nil, List.nil_append] at h
  rw [h, List.filter_filter]
  congr 1
  apply List.filter_congr
  intro x hx
  rw [Bool.and_comm]


/-- Claim C10, witness: three overlapping toasts at times 0, 2 and 3 observed
at time 5 — the first has expired, the other two are still queued in
insertion order. -/
theorem toast_queue_char_witness :
    (List.Chain' (fun a b : AddEv => a.time ≤ b.time)
        [⟨0, "a", "m1", ToastKind.success⟩, ⟨2, "b", "m2", ToastKind.error⟩,
         ⟨3, "c", "m3", ToastKind.success⟩]
      ∧ (([⟨0, "a", "m1", ToastKind.success⟩, ⟨2, "b", "m2", ToastKind.error⟩,
           ⟨3, "c", "m3", ToastKind.success⟩] : List AddEv).map
          (fun a => a.id)).Nodup) ∧
      toastQueueAt
        [⟨0, "a", "m1", ToastKind.success⟩, ⟨2, "b", "m2", ToastKind.error⟩,
         ⟨3, "c", "m3", ToastKind.success⟩] 5
      = (([⟨0, "a", "m1", ToastKind.success⟩, ⟨2, "b", "m2", ToastKind.error⟩,
           ⟨3, "c", "m3", ToastKind.success⟩] : List AddEv).filter
          (fun a => decide (a.time ≤ 5) && decide (5 < a.time + 4))).map mkToast :=
  ⟨⟨by simp [List.chain'_cons], by decide⟩,
    toast_queue_char
      [⟨0, "a", "m1", ToastKind.success⟩, ⟨2, "b", "m2", ToastKind.error⟩,
       ⟨3, "c", "m3", ToastKind.success⟩] 5
      (by simp [List.chain'_cons]) (by decide)⟩

example : toastQueueAt
    [⟨0, "a", "m1", ToastKind.success⟩, ⟨2, "b", "m2", ToastKind.error⟩,
     ⟨3, "c", "m3", ToastKind.success⟩] 5
  = [⟨"b", ToastKind.error, "m2"⟩, ⟨"c", ToastKind.success, "m3"⟩] := by decide
